import Mathlib

/-
Verification of the FikaConnect dispatch & fare-integrity engine.

The JavaScript source (`functions/index.js`, the driver-assignment Cloud
Function and the real-time tracking handlers) is shallowly embedded here.
Numeric values are modelled as exact rationals (the source computes with
JS numbers; the spec treats the arithmetic as exact up to a documented
epsilon, and all constants involved are exactly representable).  Stateful
Firestore handlers are modelled as explicit state-passing functions;
Haversine distance is kept as an explicit function parameter since its
value never decides any of the properties below.
-/

namespace FikaConnect

/-! ## Fare engine (functions/index.js) -/

def DIRECT_DELIVERY_BASE_FARE : ℚ := 3000

def COLLECTION_POINT_BASE_FARE : ℚ := 2000

def PER_KM_RATE : ℚ := 800

def PER_KG_RATE : ℚ := 500

def FRAGILE_FEE : ℚ := 1500

def MINIMUM_FARE : ℚ := 5000

/-- 10% discount factor for collection-point deliveries. -/
def COLLECTION_POINT_DISCOUNT : ℚ := 9 / 10

/-- 15% commission. -/
def COMMISSION_RATE : ℚ := 15 / 100

/-- The `SIZE_MULTIPLIERS` table: lookup returns `none` for keys that are
not in the table (JS property access yields `undefined`). -/
def SIZE_MULTIPLIERS (s : String) : Option ℚ :=
  if s = "small" then some 1
  else if s = "medium" then some (12 / 10)
  else if s = "large" then some (15 / 10)
  else if s = "xlarge" then some 2
  else none

/-- `SIZE_MULTIPLIERS[sizeCategory] || 1.0`.  Every value in the table is
nonzero, hence truthy, so the JS `||` falls back to `1.0` exactly when the
key is missing from the table. -/
def sizeMultiplierOrDefault (s : String) : ℚ :=
  (SIZE_MULTIPLIERS s).getD 1

structure FareDetails where
  totalFare : ℚ
  commission : ℚ
  driverPayout : ℚ
deriving Repr, DecidableEq

/-- `calculateDirectDeliveryFare` from functions/index.js. -/
def calculateDirectDeliveryFare (distance weight : ℚ) (sizeCategory : String)
    (fragile : Bool) : FareDetails :=
  let sizeMultiplier := sizeMultiplierOrDefault sizeCategory
  let fragileFee : ℚ := if fragile then FRAGILE_FEE else 0
  let totalFare :=
    DIRECT_DELIVERY_BASE_FARE + distance * PER_KM_RATE +
      weight * PER_KG_RATE * sizeMultiplier + fragileFee
  let totalFare := max totalFare MINIMUM_FARE
  let commission := totalFare * COMMISSION_RATE
  let driverPayout := totalFare - commission
  { totalFare := totalFare, commission := commission, driverPayout := driverPayout }

/-- JS `Math.round`: round half towards positive infinity. -/
def jsRound (q : ℚ) : ℤ := ⌊q + 1 / 2⌋

/-- `calculateCollectionPointFare` from functions/index.js. -/
def calculateCollectionPointFare (distance weight : ℚ) (sizeCategory : String)
    (fragile : Bool) : FareDetails :=
  let sizeMultiplier := sizeMultiplierOrDefault sizeCategory
  let fragileFee : ℚ := if fragile then FRAGILE_FEE else 0
  let baseCalculation :=
    COLLECTION_POINT_BASE_FARE + distance * PER_KM_RATE +
      weight * PER_KG_RATE * sizeMultiplier + fragileFee
  let totalFare := baseCalculation * COLLECTION_POINT_DISCOUNT
  let totalFare := (jsRound (totalFare / 100) : ℚ) * 100
  let commission := totalFare * COMMISSION_RATE
  let driverPayout := totalFare - commission
  { totalFare := totalFare, commission := commission, driverPayout := driverPayout }

/-- C1: for every direct-delivery input, the returned fare is at least the
minimum fare, the commission and driver payout sum exactly to the fare, and
the commission is exactly 15% of the fare. -/
theorem direct_fare_min_and_split (distance weight : ℚ) (sizeCategory : String)
    (fragile : Bool) :
    MINIMUM_FARE ≤ (calculateDirectDeliveryFare distance weight sizeCategory fragile).totalFare ∧
    (calculateDirectDeliveryFare distance weight sizeCategory fragile).commission +
        (calculateDirectDeliveryFare distance weight sizeCategory fragile).driverPayout =
      (calculateDirectDeliveryFare distance weight sizeCategory fragile).totalFare ∧
    (calculateDirectDeliveryFare distance weight sizeCategory fragile).commission =
      (calculateDirectDeliveryFare distance weight sizeCategory fragile).totalFare *
        (15 / 100 : ℚ) := by
  dsimp only [calculateDirectDeliveryFare]
  refine ⟨le_max_right _ _, by ring, rfl⟩

/-- C7: for every collection-point input the fare is an exact multiple of
100, obtained by applying the flat discount to the additive formula over the
lower base and rounding to the nearest 100. -/
theorem collection_point_fare_multiple_of_100 (distance weight : ℚ)
    (sizeCategory : String) (fragile : Bool) :
    (calculateCollectionPointFare distance weight sizeCategory fragile).totalFare =
      (jsRound ((COLLECTION_POINT_BASE_FARE + distance * PER_KM_RATE +
          weight * PER_KG_RATE * sizeMultiplierOrDefault sizeCategory +
          (if fragile then FRAGILE_FEE else 0)) * COLLECTION_POINT_DISCOUNT / 100) : ℚ) * 100 ∧
    ∃ k : ℤ, (calculateCollectionPointFare distance weight sizeCategory fragile).totalFare =
      100 * (k : ℚ) := by
  refine ⟨rfl, jsRound _, by rw [mul_comm]; rfl⟩

/-- C10: for every size-category string outside the fixed table, both fare
functions silently use the size multiplier 1.0: the computed fare details
coincide with those of a `"small"` package. -/
theorem unknown_size_category_priced_as_small (distance weight : ℚ) (s : String)
    (fragile : Bool) (h : s ∉ ["small", "medium", "large", "xlarge"]) :
    sizeMultiplierOrDefault s = 1 ∧
    calculateDirectDeliveryFare distance weight s fragile =
      calculateDirectDeliveryFare distance weight "small" fragile ∧
    calculateCollectionPointFare distance weight s fragile =
      calculateCollectionPointFare distance weight "small" fragile := by
  simp only [List.mem_cons, List.not_mem_nil, or_false, not_or] at h
  obtain ⟨h1, h2, h3, h4⟩ := h
  have hm : sizeMultiplierOrDefault s = 1 := by
    simp [sizeMultiplierOrDefault, SIZE_MULTIPLIERS, h1, h2, h3, h4]
  have hsmall : sizeMultiplierOrDefault "small" = 1 := by
    simp [sizeMultiplierOrDefault, SIZE_MULTIPLIERS]
  refine ⟨hm, ?_, ?_⟩ <;>
    simp only [calculateDirectDeliveryFare, calculateCollectionPointFare, hm, hsmall]

/-- Concrete witness for `unknown_size_category_priced_as_small` at the
malformed size class `"tiny"`. -/
theorem unknown_size_category_priced_as_small_witness :
    sizeMultiplierOrDefault "tiny" = 1 ∧
    calculateDirectDeliveryFare 7 3 "tiny" true =
      calculateDirectDeliveryFare 7 3 "small" true ∧
    calculateCollectionPointFare 7 3 "tiny" true =
      calculateCollectionPointFare 7 3 "small" true :=
  unknown_size_category_priced_as_small 7 3 "tiny" true (by decide)

/-! ## Booking finalization handler (`validateAndFinalizeBooking`)

The `onCreate` trigger reads the new booking document, recomputes fare
details from geometry and package attributes, and either updates the
document with the server-computed money fields or logs an error and leaves
the document untouched.  A coordinate field that is JS-falsy (absent, or
`lat === 0`) fails the guard `!pickup || !dropoff || !pickup.lat ||
!dropoff.lat`; in the `collection_point` branch an absent `pickup`/`dropoff`
object makes the property access `bookingData.pickup.lat` throw. -/

structure Coord where
  lat : ℚ
  lng : ℚ
deriving Repr, DecidableEq

structure PackageDetails where
  weight : ℚ
  size : String
  fragile : Bool
deriving Repr, DecidableEq

structure PaymentDetails where
  estimatedFare : ℚ
deriving Repr, DecidableEq

structure BookingData where
  deliveryType : String
  pickup : Option Coord
  dropoff : Option Coord
  packageDetails : PackageDetails
  paymentDetails : PaymentDetails
deriving Repr, DecidableEq

structure CollectionPoint where
  id : String
  name : String
  lat : ℚ
  lng : ℚ
deriving Repr, DecidableEq

/-- The hardcoded collection points of functions/index.js. -/
def collectionPoints : List CollectionPoint :=
  [⟨"cp1", "Kampala Central - Main Office", 3150 / 10000, 325822 / 10000⟩,
   ⟨"cp2", "Entebbe Road - Kitooro", 536 / 10000, 324632 / 10000⟩,
   ⟨"cp3", "Jinja Road - Mukono", 3556 / 10000, 327570 / 10000⟩,
   ⟨"cp4", "Gulu Highway - Luwero", 8333 / 10000, 324833 / 10000⟩]

/-- The money fields the handler writes back into the booking document,
together with the server-calculated distance. -/
structure BookingUpdate where
  estimatedFare : ℚ
  commission : ℚ
  driverPayout : ℚ
  distance : ℚ
deriving Repr, DecidableEq

/-- Outcome of one run of the handler: an error logged and no write, an
uncaught TypeError (property access on an absent object) and no write, or
the document update together with whether the fare-mismatch warning was
logged. -/
inductive HandlerOutcome where
  | errorLogged (msg : String)
  | thrown
  | finalized (update : BookingUpdate) (fareMismatchWarned : Bool)
deriving Repr, DecidableEq

/-- The tail of the handler once `calculatedFareDetails` is set: compare the
computed fare against the client-submitted one (warn when they differ by
more than the tolerance of 1) and overwrite the money fields with the
server-computed values. -/
def finalizeWith (fd : FareDetails) (distance : ℚ) (b : BookingData) : HandlerOutcome :=
  let fareDifference := |fd.totalFare - b.paymentDetails.estimatedFare|
  .finalized
    { estimatedFare := fd.totalFare, commission := fd.commission,
      driverPayout := fd.driverPayout, distance := distance }
    (decide (1 < fareDifference))

/-- `validateAndFinalizeBooking` from functions/index.js, parameterized by
the Haversine distance function `getDistance`. -/
def validateAndFinalizeBooking (getDistance : Coord → Coord → ℚ)
    (b : BookingData) : HandlerOutcome :=
  let weight := b.packageDetails.weight
  let sizeCategory := b.packageDetails.size
  let fragile := b.packageDetails.fragile
  if b.deliveryType = "direct" then
    match b.pickup, b.dropoff with
    | some pickup, some dropoff =>
      if pickup.lat = 0 ∨ dropoff.lat = 0 then
        .errorLogged "Invalid location data for direct delivery."
      else
        let distance := getDistance pickup dropoff
        finalizeWith (calculateDirectDeliveryFare distance weight sizeCategory fragile)
          distance b
    | _, _ => .errorLogged "Invalid location data for direct delivery."
  else if b.deliveryType = "collection_point" then
    match b.pickup, b.dropoff with
    | some pickup, some dropoff =>
      let pickupPointId := pickup.lat
      let dropoffPointId := dropoff.lat
      match collectionPoints.find? (fun p => decide (p.lat = pickupPointId)),
            collectionPoints.find? (fun p => decide (p.lat = dropoffPointId)) with
      | some startPoint, some endPoint =>
        let distance := getDistance ⟨startPoint.lat, startPoint.lng⟩ ⟨endPoint.lat, endPoint.lng⟩
        finalizeWith (calculateCollectionPointFare distance weight sizeCategory fragile)
          distance b
      | _, _ => .errorLogged "Invalid collection point data."
    | _, _ => .thrown
  else .errorLogged "Invalid delivery type."

/-- The booking with its client-submitted fare replaced by `x`. -/
def setSubmittedFare (b : BookingData) (x : ℚ) : BookingData :=
  { b with paymentDetails := { estimatedFare := x } }

/-- C3: whenever the handler reaches fare computation and finalizes, the
stored money fields are the server-computed ones and do not depend on the
client-submitted fare (changing the submitted fare yields the very same
update), and the mismatch test `|computed - submitted| > 1` only drives the
logged warning flag — it never prevents finalization. -/
theorem submitted_fare_overwritten_never_blocks (gd : Coord → Coord → ℚ)
    (b : BookingData) (u : BookingUpdate) (w : Bool)
    (h : validateAndFinalizeBooking gd b = .finalized u w) :
    w = decide (1 < |u.estimatedFare - b.paymentDetails.estimatedFare|) ∧
    ∀ y : ℚ, validateAndFinalizeBooking gd (setSubmittedFare b y) =
      .finalized u (decide (1 < |u.estimatedFare - y|)) := by
  obtain ⟨dt, pu, doff, pd, pay⟩ := b
  by_cases hdt : dt = "direct"
  · subst hdt
    rcases pu with _ | pickup
    · simp [validateAndFinalizeBooking] at h
    rcases doff with _ | dropoff
    · simp [validateAndFinalizeBooking] at h
    by_cases h0 : pickup.lat = 0 ∨ dropoff.lat = 0
    · simp [validateAndFinalizeBooking, h0] at h
    · have hred : validateAndFinalizeBooking gd
          ⟨"direct", some pickup, some dropoff, pd, pay⟩ =
          finalizeWith
            (calculateDirectDeliveryFare (gd pickup dropoff) pd.weight pd.size pd.fragile)
            (gd pickup dropoff) ⟨"direct", some pickup, some dropoff, pd, pay⟩ := by
        simp [validateAndFinalizeBooking, h0]
      rw [hred] at h
      simp only [finalizeWith, HandlerOutcome.finalized.injEq] at h
      obtain ⟨hu, hw⟩ := h
      subst hu hw
      refine ⟨rfl, fun y => ?_⟩
      simp [validateAndFinalizeBooking, setSubmittedFare, finalizeWith, h0]
  · by_cases hcp : dt = "collection_point"
    · subst hcp
      rcases pu with _ | pickup
      · simp [validateAndFinalizeBooking] at h
      rcases doff with _ | dropoff
      · simp [validateAndFinalizeBooking] at h
      rcases hsp : collectionPoints.find? (fun p => decide (p.lat = pickup.lat)) with _ | sp
      · simp [validateAndFinalizeBooking, hsp] at h
      rcases hep : collectionPoints.find? (fun p => decide (p.lat = dropoff.lat)) with _ | ep
      · simp [validateAndFinalizeBooking, hsp, hep] at h
      have hred : validateAndFinalizeBooking gd
          ⟨"collection_point", some pickup, some dropoff, pd, pay⟩ =
          finalizeWith
            (calculateCollectionPointFare (gd ⟨sp.lat, sp.lng⟩ ⟨ep.lat, ep.lng⟩)
              pd.weight pd.size pd.fragile)
            (gd ⟨sp.lat, sp.lng⟩ ⟨ep.lat, ep.lng⟩)
            ⟨"collection_point", some pickup, some dropoff, pd, pay⟩ := by
        simp [validateAndFinalizeBooking, hsp, hep]
      rw [hred] at h
      simp only [finalizeWith, HandlerOutcome.finalized.injEq] at h
      obtain ⟨hu, hw⟩ := h
      subst hu hw
      refine ⟨rfl, fun y => ?_⟩
      simp [validateAndFinalizeBooking, setSubmittedFare, finalizeWith, hsp, hep]
    · simp [validateAndFinalizeBooking, hdt, hcp] at h

/-- Concrete witness for `submitted_fare_overwritten_never_blocks`: a valid
direct booking whose submitted fare 0 mismatches the computed fare 12000. -/
def exampleC3Booking : BookingData :=
  { deliveryType := "direct", pickup := some ⟨1, 2⟩, dropoff := some ⟨3, 4⟩,
    packageDetails := { weight := 2, size := "small", fragile := false },
    paymentDetails := { estimatedFare := 0 } }

/-- The update `exampleC3Booking` is finalized with under the constant
distance function `fun _ _ => 10`: fare 3000 + 10·800 + 2·500 = 12000,
commission 1800, payout 10200. -/
def exampleC3Update : BookingUpdate :=
  { estimatedFare := 12000, commission := 1800, driverPayout := 10200, distance := 10 }

theorem submitted_fare_overwritten_never_blocks_witness :
    true = decide (1 < |exampleC3Update.estimatedFare -
        exampleC3Booking.paymentDetails.estimatedFare|) ∧
    ∀ y : ℚ, validateAndFinalizeBooking (fun _ _ => 10) (setSubmittedFare exampleC3Booking y) =
      .finalized exampleC3Update (decide (1 < |exampleC3Update.estimatedFare - y|)) :=
  submitted_fare_overwritten_never_blocks (fun _ _ => 10) exampleC3Booking
    exampleC3Update true (by
      simp [validateAndFinalizeBooking, finalizeWith, exampleC3Booking, exampleC3Update,
        calculateDirectDeliveryFare, sizeMultiplierOrDefault, SIZE_MULTIPLIERS,
        DIRECT_DELIVERY_BASE_FARE, PER_KM_RATE, PER_KG_RATE, MINIMUM_FARE,
        COMMISSION_RATE, max_def]
      norm_num)

/-- The claim C4's enumeration of invalid geometry: absent pickup/dropoff
coordinates for a direct delivery, an unresolvable collection-point
reference for a hub delivery (including an absent pickup/dropoff object,
on which the handler's property access throws), or an unrecognized
delivery type. -/
def invalidGeometry (b : BookingData) : Bool :=
  if b.deliveryType = "direct" then b.pickup.isNone || b.dropoff.isNone
  else if b.deliveryType = "collection_point" then
    match b.pickup, b.dropoff with
    | some pickup, some dropoff =>
      (collectionPoints.find? (fun p => decide (p.lat = pickup.lat))).isNone ||
        (collectionPoints.find? (fun p => decide (p.lat = dropoff.lat))).isNone
    | _, _ => true
  else true

/-- C4: on invalid geometry the handler surfaces an error (a logged error,
or the uncaught throw of the hub branch's property access) and never
finalizes: no money or assignment field is written. -/
theorem invalid_geometry_unfinalized (gd : Coord → Coord → ℚ) (b : BookingData)
    (h : invalidGeometry b = true) :
    ((∃ msg, validateAndFinalizeBooking gd b = .errorLogged msg) ∨
      validateAndFinalizeBooking gd b = .thrown) ∧
    ∀ u w, validateAndFinalizeBooking gd b ≠ .finalized u w := by
  have main : (∃ msg, validateAndFinalizeBooking gd b = .errorLogged msg) ∨
      validateAndFinalizeBooking gd b = .thrown := by
    obtain ⟨dt, pu, doff, pd, pay⟩ := b
    by_cases hdt : dt = "direct"
    · subst hdt
      simp only [invalidGeometry, reduceIte] at h
      rcases pu with _ | pickup
      · exact .inl ⟨"Invalid location data for direct delivery.",
          by simp [validateAndFinalizeBooking]⟩
      rcases doff with _ | dropoff
      · exact .inl ⟨"Invalid location data for direct delivery.",
          by simp [validateAndFinalizeBooking]⟩
      simp at h
    · by_cases hcp : dt = "collection_point"
      · subst hcp
        simp only [invalidGeometry, reduceIte, if_neg hdt] at h
        rcases pu with _ | pickup
        · exact .inr (by simp [validateAndFinalizeBooking])
        rcases doff with _ | dropoff
        · exact .inr (by simp [validateAndFinalizeBooking])
        rcases hsp : collectionPoints.find? (fun p => decide (p.lat = pickup.lat)) with _ | sp
        · exact .inl ⟨"Invalid collection point data.",
            by simp [validateAndFinalizeBooking, hsp]⟩
        rcases hep : collectionPoints.find? (fun p => decide (p.lat = dropoff.lat)) with _ | ep
        · exact .inl ⟨"Invalid collection point data.",
            by simp [validateAndFinalizeBooking, hsp, hep]⟩
        simp [hsp, hep] at h
      · exact .inl ⟨"Invalid delivery type.",
          by simp [validateAndFinalizeBooking, hdt, hcp]⟩
  refine ⟨main, fun u w hfin => ?_⟩
  rcases main with ⟨m, hm⟩ | hm <;> rw [hfin] at hm <;> simp at hm

/-- Witness booking for C4: a direct delivery with no pickup coordinates. -/
def exampleC4Booking : BookingData :=
  { deliveryType := "direct", pickup := none, dropoff := some ⟨3, 4⟩,
    packageDetails := { weight := 2, size := "small", fragile := false },
    paymentDetails := { estimatedFare := 0 } }

theorem invalid_geometry_unfinalized_witness :
    ((∃ msg, validateAndFinalizeBooking (fun _ _ => 0) exampleC4Booking = .errorLogged msg) ∨
      validateAndFinalizeBooking (fun _ _ => 0) exampleC4Booking = .thrown) ∧
    ∀ u w, validateAndFinalizeBooking (fun _ _ => 0) exampleC4Booking ≠ .finalized u w :=
  invalid_geometry_unfinalized (fun _ _ => 0) exampleC4Booking (by decide)

/-! ## Driver assignment coordinator (`assignDriverToBooking`)

The assignment Cloud Function reads the booking, queries the available and
active drivers, scores them (`calculateDriverScores`), and then performs two
separate Firestore `update` calls: first on the booking document, then on
the selected driver document.  The sub-score helper functions
(`calculateDistanceScore` and friends) are only called, never defined, in
the repository, so they are kept as an explicit function parameter
`subScores`; the weighting and the sort are embedded from the source. -/

structure DriverRec where
  name : String
  status : String
  isActive : Bool
  activeDeliveries : ℕ
  currentBookingId : Option String
deriving Repr, DecidableEq

structure BookingRec where
  status : String
  driverId : Option String
  driverName : Option String
deriving Repr, DecidableEq

/-- The Firestore state the assignment function touches. -/
structure World where
  drivers : List (String × DriverRec)
  bookings : List (String × BookingRec)
deriving Repr, DecidableEq

/-- The five component scores a driver receives for a booking. -/
structure SubScores where
  distanceScore : ℚ
  workloadScore : ℚ
  ratingScore : ℚ
  vehicleScore : ℚ
  availabilityScore : ℚ
deriving Repr, DecidableEq

structure ScoredDriver where
  driverId : String
  driverName : String
  totalScore : ℚ
  distanceScore : ℚ
  workloadScore : ℚ
  ratingScore : ℚ
  vehicleScore : ℚ
  availabilityScore : ℚ
deriving Repr, DecidableEq

/-- One row of `calculateDriverScores`: the composite score with the
source's weights 0.4, 0.2, 0.15, 0.15, 0.1. -/
def scoreDriver (subScores : String → DriverRec → SubScores)
    (p : String × DriverRec) : ScoredDriver :=
  let s := subScores p.1 p.2
  { driverId := p.1, driverName := p.2.name,
    totalScore := s.distanceScore * (4 / 10) + s.workloadScore * (2 / 10) +
      s.ratingScore * (15 / 100) + s.vehicleScore * (15 / 100) +
      s.availabilityScore * (1 / 10),
    distanceScore := s.distanceScore, workloadScore := s.workloadScore,
    ratingScore := s.ratingScore, vehicleScore := s.vehicleScore,
    availabilityScore := s.availabilityScore }

/-- Insertion step of a stable descending sort on `totalScore`: the new row
goes after every already-placed row whose total score is at least its own.
This models `sort((a, b) => b.totalScore - a.totalScore)` (ECMAScript sorts
are stable, and the comparator looks at `totalScore` only). -/
def insertScored (x : ScoredDriver) : List ScoredDriver → List ScoredDriver
  | [] => [x]
  | y :: ys => if x.totalScore ≤ y.totalScore then y :: insertScored x ys
               else x :: y :: ys

def sortByTotalScoreDesc (l : List ScoredDriver) : List ScoredDriver :=
  l.foldl (fun acc x => insertScored x acc) []

/-- `calculateDriverScores`: score every driver, then sort by total score,
highest first. -/
def calculateDriverScores (subScores : String → DriverRec → SubScores)
    (drivers : List (String × DriverRec)) : List ScoredDriver :=
  sortByTotalScoreDesc (drivers.map (scoreDriver subScores))

def lookupAssoc {α : Type} (l : List (String × α)) (k : String) : Option α :=
  (l.find? (fun p => decide (p.1 = k))).map Prod.snd

def updateAssoc {α : Type} (l : List (String × α)) (k : String) (f : α → α) :
    List (String × α) :=
  l.map (fun p => if p.1 = k then (p.1, f p.2) else p)

/-- The `where('status','==','available').where('isActive','==',true)`
query. -/
def queryAvailableDrivers (w : World) : List (String × DriverRec) :=
  w.drivers.filter (fun p => decide (p.2.status = "available") && p.2.isActive)

/-- First `update` call of the commit: the booking document alone. -/
def commitBookingAssignment (w : World) (bookingId : String)
    (sel : ScoredDriver) : World :=
  { w with bookings := updateAssoc w.bookings bookingId (fun b =>
      { b with
        driverId := some sel.driverId
        driverName := some sel.driverName
        status := "Driver Assigned" }) }

/-- Second, separate `update` call of the commit: the driver document. -/
def commitDriverAssignment (w : World) (bookingId : String)
    (sel : ScoredDriver) : World :=
  { w with drivers := updateAssoc w.drivers sel.driverId (fun d =>
      { d with status := "assigned", currentBookingId := some bookingId }) }

/-- `assignDriverToBooking` from the driver-assignment Cloud Function, run
to completion without interleaving. -/
def assignDriverToBooking (subScores : String → DriverRec → SubScores)
    (w : World) (bookingId : String) : World :=
  match lookupAssoc w.bookings bookingId with
  | none => w
  | some bookingData =>
    if bookingData.status ≠ "Pending Driver Assignment" then w
    else
      let avail := queryAvailableDrivers w
      if avail.isEmpty then w
      else
        match calculateDriverScores subScores avail with
        | [] => w
        | selectedDriver :: _ =>
          commitDriverAssignment (commitBookingAssignment w bookingId selectedDriver)
            bookingId selectedDriver

theorem insertScored_perm (x : ScoredDriver) (l : List ScoredDriver) :
    (insertScored x l).Perm (x :: l) := by
  induction l with
  | nil => exact List.Perm.refl _
  | cons y ys ih =>
    simp only [insertScored]
    split
    · exact (ih.cons y).trans (List.Perm.swap x y ys)
    · exact List.Perm.refl _

theorem insertScored_sorted (x : ScoredDriver) {l : List ScoredDriver}
    (h : l.Sorted fun a b => b.totalScore ≤ a.totalScore) :
    (insertScored x l).Sorted fun a b => b.totalScore ≤ a.totalScore := by
  induction l with
  | nil => simp [insertScored]
  | cons y ys ih =>
    rw [List.sorted_cons] at h
    obtain ⟨hy, hys⟩ := h
    simp only [insertScored]
    split
    case isTrue hle =>
      rw [List.sorted_cons]
      refine ⟨fun b hb => ?_, ih hys⟩
      rcases List.mem_cons.mp ((insertScored_perm x ys).mem_iff.mp hb) with rfl | hbys
      · exact hle
      · exact hy b hbys
    case isFalse hgt =>
      push_neg at hgt
      rw [List.sorted_cons]
      refine ⟨fun b hb => ?_, by rw [List.sorted_cons]; exact ⟨hy, hys⟩⟩
      rcases List.mem_cons.mp hb with rfl | hbys
      · exact le_of_lt hgt
      · exact (hy b hbys).trans (le_of_lt hgt)

theorem foldl_insertScored_perm (l acc : List ScoredDriver) :
    (l.foldl (fun acc x => insertScored x acc) acc).Perm (acc ++ l) := by
  induction l generalizing acc with
  | nil => simp
  | cons x xs ih =>
    simp only [List.foldl_cons]
    refine (ih (insertScored x acc)).trans ?_
    refine (((insertScored_perm x acc).append_right xs).trans ?_)
    exact List.perm_middle.symm

theorem foldl_insertScored_sorted (l : List ScoredDriver)
    {acc : List ScoredDriver}
    (hacc : acc.Sorted fun a b => b.totalScore ≤ a.totalScore) :
    (l.foldl (fun acc x => insertScored x acc) acc).Sorted
      fun a b => b.totalScore ≤ a.totalScore := by
  induction l generalizing acc with
  | nil => exact hacc
  | cons x xs ih => exact ih (insertScored_sorted x hacc)

theorem calculateDriverScores_perm (f : String → DriverRec → SubScores)
    (drivers : List (String × DriverRec)) :
    (calculateDriverScores f drivers).Perm (drivers.map (scoreDriver f)) := by
  simpa using foldl_insertScored_perm (drivers.map (scoreDriver f)) []

theorem calculateDriverScores_sorted (f : String → DriverRec → SubScores)
    (drivers : List (String × DriverRec)) :
    (calculateDriverScores f drivers).Sorted
      fun a b => b.totalScore ≤ a.totalScore :=
  foldl_insertScored_sorted _ (by simp)

/-- Sub-score assignment giving every driver the same five component
scores, hence the same composite score 1. -/
def tieSubScores : String → DriverRec → SubScores := fun _ _ => ⟨1, 1, 1, 1, 1⟩

/-- Two available drivers with equal composite scores: the one listed
first, "d9", has five active deliveries and the larger id; "d1" has none
and the smaller id. -/
def exampleC6Drivers : List (String × DriverRec) :=
  [("d9", ⟨"Driver Nine", "available", true, 5, none⟩),
   ("d1", ⟨"Driver One", "available", true, 0, none⟩)]

/-- C6 counterexample: on two candidates with equal total scores the code
ranks snapshot order first — "d9" (5 active deliveries, larger id) stays
ahead of "d1" (0 active deliveries, smaller id) — so the committed top
candidate is not the one the claimed tie-break (lower active-delivery
count, then driver id) selects. -/
theorem equal_scores_not_tiebroken :
    (calculateDriverScores tieSubScores exampleC6Drivers).map
        (fun s => (s.driverId, s.totalScore)) = [("d9", 1), ("d1", 1)] ∧
    exampleC6Drivers.map (fun p => p.2.activeDeliveries) = [5, 0] := by
  refine ⟨?_, by decide⟩
  norm_num [calculateDriverScores, sortByTotalScoreDesc, insertScored, scoreDriver,
    tieSubScores, exampleC6Drivers]

/-- C6 (amended): on a pending booking with a non-empty candidate pool the
coordinator scores every eligible driver with the composite weights
0.4/0.2/0.15/0.15/0.1, orders them by total score alone, highest first
(no tie-break on active-delivery count or driver id: equal totals keep
their snapshot order), and commits the head of that list — first the
booking update, then the separate driver update. -/
theorem scores_sorted_and_head_committed (f : String → DriverRec → SubScores)
    (w : World) (bookingId : String) (bk : BookingRec)
    (hbk : lookupAssoc w.bookings bookingId = some bk)
    (hst : bk.status = "Pending Driver Assignment")
    (sel : ScoredDriver) (rest : List ScoredDriver)
    (hscored : calculateDriverScores f (queryAvailableDrivers w) = sel :: rest) :
    assignDriverToBooking f w bookingId =
      commitDriverAssignment (commitBookingAssignment w bookingId sel) bookingId sel ∧
    (sel :: rest).Sorted (fun a b => b.totalScore ≤ a.totalScore) ∧
    (sel :: rest).Perm ((queryAvailableDrivers w).map (scoreDriver f)) ∧
    ∀ s ∈ sel :: rest,
      s.totalScore = s.distanceScore * (4 / 10) + s.workloadScore * (2 / 10) +
        s.ratingScore * (15 / 100) + s.vehicleScore * (15 / 100) +
        s.availabilityScore * (1 / 10) := by
  have hperm : (sel :: rest).Perm ((queryAvailableDrivers w).map (scoreDriver f)) := by
    rw [← hscored]; exact calculateDriverScores_perm f _
  have hsorted : (sel :: rest).Sorted fun a b => b.totalScore ≤ a.totalScore := by
    rw [← hscored]; exact calculateDriverScores_sorted f _
  have hne : queryAvailableDrivers w ≠ [] := by
    intro hav
    rw [hav] at hscored
    simp [calculateDriverScores, sortByTotalScoreDesc] at hscored
  have hweights : ∀ s ∈ sel :: rest,
      s.totalScore = s.distanceScore * (4 / 10) + s.workloadScore * (2 / 10) +
        s.ratingScore * (15 / 100) + s.vehicleScore * (15 / 100) +
        s.availabilityScore * (1 / 10) := by
    intro s hs
    obtain ⟨p, -, rfl⟩ := List.mem_map.mp (hperm.mem_iff.mp hs)
    rfl
  have hempty : (queryAvailableDrivers w).isEmpty = false := by
    cases hq : queryAvailableDrivers w with
    | nil => exact absurd hq hne
    | cons a as => rfl
  refine ⟨?_, hsorted, hperm, hweights⟩
  simp [assignDriverToBooking, hbk, hst, hempty, hscored]

/-- A world with one available, active driver and one pending booking. -/
def exampleC6World : World :=
  { drivers := [("d1", ⟨"Driver One", "available", true, 0, none⟩)],
    bookings := [("b1", ⟨"Pending Driver Assignment", none, none⟩)] }

/-- The score row driver "d1" receives from `tieSubScores`. -/
def exampleC6Sel : ScoredDriver := ⟨"d1", "Driver One", 1, 1, 1, 1, 1, 1⟩

theorem scores_sorted_and_head_committed_witness :
    assignDriverToBooking tieSubScores exampleC6World "b1" =
      commitDriverAssignment (commitBookingAssignment exampleC6World "b1" exampleC6Sel)
        "b1" exampleC6Sel ∧
    ([exampleC6Sel]).Sorted (fun a b => b.totalScore ≤ a.totalScore) ∧
    ([exampleC6Sel]).Perm
      ((queryAvailableDrivers exampleC6World).map (scoreDriver tieSubScores)) ∧
    ∀ s ∈ [exampleC6Sel],
      s.totalScore = s.distanceScore * (4 / 10) + s.workloadScore * (2 / 10) +
        s.ratingScore * (15 / 100) + s.vehicleScore * (15 / 100) +
        s.availabilityScore * (1 / 10) :=
  scores_sorted_and_head_committed tieSubScores exampleC6World "b1"
    ⟨"Pending Driver Assignment", none, none⟩ (by decide) rfl exampleC6Sel []
    (by norm_num [calculateDriverScores, sortByTotalScoreDesc, insertScored,
      scoreDriver, tieSubScores, exampleC6World, queryAvailableDrivers, exampleC6Sel])

/-- A world whose only driver is offline: the availability query returns
no candidate. -/
def exampleC5World : World :=
  { drivers := [("d1", ⟨"Driver One", "offline", true, 0, none⟩)],
    bookings := [("b1", ⟨"Pending Driver Assignment", none, none⟩)] }

/-- C5 counterexample: with zero eligible drivers the handler logs and
returns without any write, so the booking's status stays
"Pending Driver Assignment" — it does not end in "AssignmentFailed" (no
such status is ever written by the code). -/
theorem no_eligible_driver_keeps_pending :
    assignDriverToBooking tieSubScores exampleC5World "b1" = exampleC5World ∧
    (lookupAssoc (assignDriverToBooking tieSubScores exampleC5World "b1").bookings
        "b1").map BookingRec.status = some "Pending Driver Assignment" ∧
    (lookupAssoc (assignDriverToBooking tieSubScores exampleC5World "b1").bookings
        "b1").map BookingRec.status ≠ some "AssignmentFailed" := by
  have h : assignDriverToBooking tieSubScores exampleC5World "b1" = exampleC5World := by
    decide
  refine ⟨h, ?_, ?_⟩ <;> rw [h] <;> decide

/-- C5 (amended): when the eligible-driver query comes back empty the
handler stops and the world is completely unchanged: no driver record is
mutated and the booking keeps its previous status (it stays
"Pending Driver Assignment" rather than moving to "AssignmentFailed"). -/
theorem empty_pool_leaves_world_unchanged (f : String → DriverRec → SubScores)
    (w : World) (bookingId : String) (h : queryAvailableDrivers w = []) :
    assignDriverToBooking f w bookingId = w := by
  simp only [assignDriverToBooking]
  cases hbk : lookupAssoc w.bookings bookingId with
  | none => rfl
  | some bk =>
    split
    · rfl
    · simp [h]

theorem empty_pool_leaves_world_unchanged_witness :
    assignDriverToBooking tieSubScores exampleC5World "b1" = exampleC5World :=
  empty_pool_leaves_world_unchanged tieSubScores exampleC5World "b1" (by decide)

/-- One available driver, two bookings waiting for assignment. -/
def c2World : World :=
  { drivers := [("d1", ⟨"Driver One", "available", true, 0, none⟩)],
    bookings := [("b1", ⟨"Pending Driver Assignment", none, none⟩),
                 ("b2", ⟨"Pending Driver Assignment", none, none⟩)] }

def c2Sel : ScoredDriver := ⟨"d1", "Driver One", 1, 1, 1, 1, 1, 1⟩

/-- The world after a legal interleaving of the two handler instances for
"b1" and "b2": both awaited availability queries run against `c2World`
before either commit lands, then the two non-transactional commit pairs
(booking update, then driver update) land in turn. -/
def c2Final : World :=
  commitDriverAssignment
    (commitBookingAssignment
      (commitDriverAssignment (commitBookingAssignment c2World "b1" c2Sel) "b1" c2Sel)
      "b2" c2Sel)
    "b2" c2Sel

/-- C2: the commit is not atomic.  The handler runs its availability query
and its two `update` calls as separate awaited steps, so two concurrent
assignment attempts may both read driver "d1" as available and both commit:
the interleaving `c2Final` leaves BOTH bookings in "Driver Assigned" with
driverId "d1", while the driver record can point back at only one of them —
driver "d1" is double-booked. -/
theorem concurrent_assignments_double_book :
    (calculateDriverScores tieSubScores (queryAvailableDrivers c2World)).head? =
      some c2Sel ∧
    (lookupAssoc c2World.bookings "b1").map BookingRec.status =
      some "Pending Driver Assignment" ∧
    (lookupAssoc c2World.bookings "b2").map BookingRec.status =
      some "Pending Driver Assignment" ∧
    (lookupAssoc c2Final.bookings "b1").map BookingRec.driverId = some (some "d1") ∧
    (lookupAssoc c2Final.bookings "b2").map BookingRec.driverId = some (some "d1") ∧
    (lookupAssoc c2Final.bookings "b1").map BookingRec.status = some "Driver Assigned" ∧
    (lookupAssoc c2Final.bookings "b2").map BookingRec.status = some "Driver Assigned" ∧
    (lookupAssoc c2Final.drivers "d1").map DriverRec.currentBookingId =
      some (some "b2") := by
  refine ⟨?_, by decide, by decide, by decide, by decide, by decide, by decide, by decide⟩
  norm_num [calculateDriverScores, sortByTotalScoreDesc, insertScored, scoreDriver,
    tieSubScores, c2World, c2Sel, queryAvailableDrivers]

/-! ## Location ingestion pipeline (`updateDriverLocationInFirestore`)

For every booking assigned to the reporting driver and in an active status,
the handler overwrites `tracking.currentLocation` (and, when the dropoff
coordinates are usable, the remaining distance and ETA) with values derived
from the incoming sample.  The sample's own capture timestamp is never
compared against anything: `tracking.lastUpdateTime` is set to the server
receive time `now`, and no monotonicity guard exists. -/

structure TrackingState where
  enabled : Bool
  lastUpdateTime : ℚ
  currentLocation : Option Coord
  driverBatteryLevel : ℚ
  remainingDistance : Option ℚ
  estimatedArrival : Option ℚ
deriving Repr, DecidableEq

structure BookingTrack where
  assignedDriver : String
  status : String
  dropoffLocation : Option Coord
  tracking : TrackingState
deriving Repr, DecidableEq

structure LocationSample where
  lat : ℚ
  lng : ℚ
  speed : ℚ
  captureTimestamp : ℚ
  batteryLevel : ℚ
deriving Repr, DecidableEq

/-- The per-booking body of the handler's `forEach`.  `calcDistance` stands
for the Haversine helper (metres); `now` is the server timestamp.  The
JS guard `dropoffLocation && dropoffLocation.lat && dropoffLocation.lng`
treats latitude or longitude 0 as falsy, in which case the old remaining
distance and ETA are kept (the spread of an empty object). -/
def updateBookingTracking (calcDistance : ℚ → ℚ → ℚ → ℚ → ℚ) (now : ℚ)
    (sample : LocationSample) (b : BookingTrack) : BookingTrack :=
  match b.dropoffLocation with
  | some dl =>
    if dl.lat ≠ 0 ∧ dl.lng ≠ 0 then
      let remainingDistance := calcDistance sample.lat sample.lng dl.lat dl.lng / 1000
      let avgSpeedKmh := if sample.speed ≠ 0 then sample.speed * (36 / 10) else 30
      let estimatedTimeHours := remainingDistance / max avgSpeedKmh 10
      { b with tracking :=
        { enabled := true
          lastUpdateTime := now
          currentLocation := some ⟨sample.lat, sample.lng⟩
          driverBatteryLevel := sample.batteryLevel
          remainingDistance := some remainingDistance
          estimatedArrival := some (now + estimatedTimeHours) } }
    else
      { b with tracking :=
        { b.tracking with
          enabled := true
          lastUpdateTime := now
          currentLocation := some ⟨sample.lat, sample.lng⟩
          driverBatteryLevel := sample.batteryLevel } }
  | none =>
    { b with tracking :=
      { b.tracking with
        enabled := true
        lastUpdateTime := now
        currentLocation := some ⟨sample.lat, sample.lng⟩
        driverBatteryLevel := sample.batteryLevel } }

/-- `updateDriverLocationInFirestore`: apply the per-booking update to
every booking of the reporting driver in status Assigned, Picked Up or
In Transit (the `where(...'in'...)` query). -/
def updateDriverLocationInFirestore (calcDistance : ℚ → ℚ → ℚ → ℚ → ℚ)
    (now : ℚ) (driverId : String) (sample : LocationSample)
    (bookings : List (String × BookingTrack)) : List (String × BookingTrack) :=
  bookings.map (fun p =>
    if p.2.assignedDriver = driverId ∧
        p.2.status ∈ ["Assigned", "Picked Up", "In Transit"] then
      (p.1, updateBookingTracking calcDistance now sample p.2)
    else p)

/-- A booking whose projection was last written at time 100. -/
def exampleC8Booking : BookingTrack :=
  { assignedDriver := "d1", status := "In Transit", dropoffLocation := none,
    tracking :=
      { enabled := true, lastUpdateTime := 100, currentLocation := some ⟨1, 1⟩,
        driverBatteryLevel := 50, remainingDistance := none, estimatedArrival := none } }

/-- A sample captured at time 50 — older than the booking's last applied
update. -/
def exampleC8Sample : LocationSample :=
  { lat := 2, lng := 2, speed := 0, captureTimestamp := 50, batteryLevel := 80 }

/-- C8 counterexample: a sample whose capture timestamp (50) is older than
the booking's last applied update (100) still changes the live
`currentLocation` projection from (1,1) to (2,2): there is no staleness
guard. -/
theorem stale_sample_changes_projection :
    exampleC8Sample.captureTimestamp < exampleC8Booking.tracking.lastUpdateTime ∧
    (updateDriverLocationInFirestore (fun _ _ _ _ => 0) 200 "d1" exampleC8Sample
        [("b1", exampleC8Booking)]).map (fun p => p.2.tracking.currentLocation) =
      [some ⟨2, 2⟩] ∧
    some (⟨2, 2⟩ : Coord) ≠ exampleC8Booking.tracking.currentLocation := by
  refine ⟨by norm_num [exampleC8Sample, exampleC8Booking], ?_, by decide⟩
  norm_num [updateDriverLocationInFirestore, updateBookingTracking,
    exampleC8Sample, exampleC8Booking]

/-- C8 (amended): every sample processed for an assigned, active booking
overwrites the booking's `currentLocation` projection with the sample's
coordinates unconditionally — in particular, samples with an older capture
timestamp than the last applied one DO change the projection (they are not
excluded from the live view; only the non-regression of history applies). -/
theorem processed_sample_always_overwrites (calcDistance : ℚ → ℚ → ℚ → ℚ → ℚ)
    (now : ℚ) (driverId : String) (sample : LocationSample)
    (bookings : List (String × BookingTrack)) (p : String × BookingTrack)
    (hp : p ∈ bookings) (hd : p.2.assignedDriver = driverId)
    (hs : p.2.status ∈ ["Assigned", "Picked Up", "In Transit"]) :
    (p.1, updateBookingTracking calcDistance now sample p.2) ∈
      updateDriverLocationInFirestore calcDistance now driverId sample bookings ∧
    (updateBookingTracking calcDistance now sample p.2).tracking.currentLocation =
      some ⟨sample.lat, sample.lng⟩ := by
  constructor
  · refine List.mem_map.mpr ⟨p, hp, ?_⟩
    rw [if_pos ⟨hd, hs⟩]
  · unfold updateBookingTracking
    split <;> first
      | rfl
      | (split <;> rfl)

theorem processed_sample_always_overwrites_witness :
    (("b1", updateBookingTracking (fun _ _ _ _ => 0) 200 exampleC8Sample exampleC8Booking) ∈
      updateDriverLocationInFirestore (fun _ _ _ _ => 0) 200 "d1" exampleC8Sample
        [("b1", exampleC8Booking)]) ∧
    (updateBookingTracking (fun _ _ _ _ => 0) 200 exampleC8Sample
        exampleC8Booking).tracking.currentLocation =
      some ⟨exampleC8Sample.lat, exampleC8Sample.lng⟩ :=
  processed_sample_always_overwrites (fun _ _ _ _ => 0) 200 "d1" exampleC8Sample
    [("b1", exampleC8Booking)] ("b1", exampleC8Booking)
    (by decide) rfl (by decide)

/-! ## Tracking sessions (`initializeTracking` of tracking.html)

The customer tracking page looks the session up by its token, then issues
the access-counter update, and only AFTER that checks the expiry timestamp;
an expired read is rejected (no booking data shown) but has already been
counted. -/

structure TrackingSession where
  bookingId : String
  expiresAt : Option ℚ
  accessCount : Option ℕ
  lastAccessedAt : Option ℚ
deriving Repr, DecidableEq

inductive TrackingResult where
  | sessionNotFound
  | expired
  | bookingMissing
  | ok (bookingId : String)
deriving Repr, DecidableEq

/-- `initializeTracking`: returns the page's outcome and the session store
after the read.  `(trackingSession.accessCount || 0) + 1` is modelled with
`Option.getD`; `expiresAt && expiresAt.toDate() < new Date()` requires the
field to be present and strictly below `now`. -/
def initializeTracking (now : ℚ) (sessions : List (String × TrackingSession))
    (bookings : List String) (trackingId : String) :
    TrackingResult × List (String × TrackingSession) :=
  match lookupAssoc sessions trackingId with
  | none => (.sessionNotFound, sessions)
  | some s =>
    let sessions' := updateAssoc sessions trackingId (fun _ =>
      { s with
        accessCount := some (s.accessCount.getD 0 + 1)
        lastAccessedAt := some now })
    if (match s.expiresAt with
        | some e => decide (e < now)
        | none => false) then
      (.expired, sessions')
    else if s.bookingId ∈ bookings then (.ok s.bookingId, sessions')
    else (.bookingMissing, sessions')

theorem lookupAssoc_updateAssoc {α : Type} (l : List (String × α)) (k : String)
    (f : α → α) :
    lookupAssoc (updateAssoc l k f) k = (lookupAssoc l k).map f := by
  induction l with
  | nil => rfl
  | cons p ps ih =>
    by_cases hk : p.1 = k
    · simp [lookupAssoc, updateAssoc, List.find?_cons, hk]
    · simp only [lookupAssoc, updateAssoc, List.map_cons] at ih ⊢
      rw [if_neg hk]
      rw [List.find?_cons_of_neg _ (by simpa using hk),
        List.find?_cons_of_neg _ (by simpa using hk)]
      exact ih

/-- A session store holding one session that expired at time 50 with no
recorded accesses. -/
def exampleC9Sessions : List (String × TrackingSession) :=
  [("t1", { bookingId := "b1", expiresAt := some 50, accessCount := some 0,
            lastAccessedAt := none })]

/-- C9 counterexample: reading token "t1" at time 100 — strictly after its
expiry 50 — is rejected, yet the session's access counter has been
incremented from 0 to 1 by the rejected read. -/
theorem expired_read_increments_counter :
    (initializeTracking 100 exampleC9Sessions ["b1"] "t1").1 = .expired ∧
    (lookupAssoc (initializeTracking 100 exampleC9Sessions ["b1"] "t1").2 "t1").map
        TrackingSession.accessCount = some (some 1) := by
  constructor <;>
    norm_num [initializeTracking, exampleC9Sessions, lookupAssoc, updateAssoc,
      List.find?]

/-- C9 (amended): a read strictly after the session's expiry timestamp is
rejected (`expired`, no booking data), and the access counter is
incremented exactly once per read of an existing session — including
rejected expired reads — while a read of a missing token changes nothing. -/
theorem tracking_read_expiry_and_counter (now : ℚ)
    (sessions : List (String × TrackingSession)) (bookings : List String)
    (trackingId : String) :
    (lookupAssoc sessions trackingId = none →
      initializeTracking now sessions bookings trackingId =
        (.sessionNotFound, sessions)) ∧
    ∀ s, lookupAssoc sessions trackingId = some s →
      ((∀ e, s.expiresAt = some e → e < now →
          (initializeTracking now sessions bookings trackingId).1 = .expired) ∧
        lookupAssoc (initializeTracking now sessions bookings trackingId).2
            trackingId =
          some { s with
            accessCount := some (s.accessCount.getD 0 + 1)
            lastAccessedAt := some now }) := by
  constructor
  · intro hnone
    simp [initializeTracking, hnone]
  · intro s hs
    constructor
    · intro e he hlt
      simp [initializeTracking, hs, he, hlt]
    · have hsnd : (initializeTracking now sessions bookings trackingId).2 =
          updateAssoc sessions trackingId (fun _ =>
            { s with
              accessCount := some (s.accessCount.getD 0 + 1)
              lastAccessedAt := some now }) := by
        simp only [initializeTracking, hs]
        split
        · rfl
        · split <;> rfl
      rw [hsnd, lookupAssoc_updateAssoc, hs]
      rfl

theorem tracking_read_expiry_and_counter_witness :
    (lookupAssoc exampleC9Sessions "t1" = none →
      initializeTracking 100 exampleC9Sessions ["b1"] "t1" =
        (.sessionNotFound, exampleC9Sessions)) ∧
    ∀ s, lookupAssoc exampleC9Sessions "t1" = some s →
      ((∀ e, s.expiresAt = some e → e < 100 →
          (initializeTracking 100 exampleC9Sessions ["b1"] "t1").1 = .expired) ∧
        lookupAssoc (initializeTracking 100 exampleC9Sessions ["b1"] "t1").2 "t1" =
          some { s with
            accessCount := some (s.accessCount.getD 0 + 1)
            lastAccessedAt := some (100 : ℚ) }) :=
  tracking_read_expiry_and_counter 100 exampleC9Sessions ["b1"] "t1"

end FikaConnect
